import Mathlib

/-!
Verification of the transfer-submission workflow of the `lazorkit-starter`
repository (two near-duplicate integration variants: the direct LazorKit
provider in `AppDirect` and the wallet-standard adapter in
`AppWalletStandard`).

The embedding models the React component state (`useState` hooks of
`WalletDashboard`) as an explicit record, and the event-loop effects of
`refreshBalance` and `handleSendTransaction` as pure functions returning the
updated state together with an ordered list of emitted effects.  JavaScript
numbers are modelled as exact rationals (`ℚ`); `parseFloat` is modelled on
plain decimal literals, returning `none` for `NaN`.  Account addresses
(`PublicKey`) are opaque: the base58 parser lives in the external
`@solana/web3.js` library, so the handlers are parameterised over a parsing
function `String → Option PubKey`.
-/

/-- Account addresses are opaque identifiers; parsing/validity is decided by
the external web3 library, which the handlers take as a parameter. -/
abbrev PubKey := String

/-- The `useState` hooks of `WalletDashboard` that the workflow logic touches
(`balance`, `recipient`, `amount`, `txHash`, `txError`, `showSendModal`,
`sending`); both variants declare the identical set. -/
structure DashState where
  balance : Option ℚ
  recipient : String
  amount : String
  txHash : Option String
  txError : String
  showSendModal : Bool
  sending : Bool
deriving DecidableEq

/-- Initial hook values of `WalletDashboard` (`useState(null)`, `useState('')`,
`useState(false)` in both variants). -/
def initDashState : DashState :=
  { balance := none, recipient := "", amount := "", txHash := none,
    txError := "", showSendModal := false, sending := false }

/-- Ordered effects emitted while a handler runs: state-setter calls, the
sign-and-submit call (with the lamports figure handed to
`SystemProgram.transfer`), the RPC balance query, and console logging. -/
inductive Ev where
  | setTxErrorEv (m : String)
  | setTxHashEv (v : Option String)
  | setSendingEv (b : Bool)
  | setRecipientEv (v : String)
  | setAmountEv (v : String)
  | submitEv (rcpt : PubKey) (lamports : ℚ)
  | balanceQueryEv (pk : PubKey)
  | setBalanceEv (b : ℚ)
  | logErrorEv (m : String)
deriving DecidableEq

/-- List-of-characters test: `p` is an initial segment of `l`. -/
def startsWithL : List Char → List Char → Bool
  | [], _ => true
  | _ :: _, [] => false
  | a :: as, b :: bs => a == b && startsWithL as bs

/-- List-of-characters substring occurrence test. -/
def occursInL : List Char → List Char → Bool
  | p, [] => p.isEmpty
  | p, l@(_ :: rest) => startsWithL p l || occursInL p rest

/-- Model of JavaScript `String.prototype.includes`, used by the error
classifiers of both variants. -/
def containsSub (s pat : String) : Bool :=
  occursInL pat.data s.data

/-- Decimal digit character for `n % 10`. -/
def digitChar (n : ℕ) : Char :=
  Char.ofNat (48 + n % 10)

/-- Four decimal digits, zero padded (the fractional part of `toFixed(4)`). -/
def pad4 (n : ℕ) : String :=
  ⟨[digitChar (n / 1000), digitChar (n / 100), digitChar (n / 10), digitChar n]⟩

/-- Decimal digits of a natural number (fuel-based structural recursion). -/
def natToChars : ℕ → ℕ → List Char
  | 0, _ => []
  | fuel + 1, n => if n < 10 then [digitChar n] else natToChars fuel (n / 10) ++ [digitChar n]

/-- Decimal rendering of a natural number. -/
def natToStr (n : ℕ) : String :=
  ⟨natToChars (n + 1) n⟩

/-- Model of JavaScript `Number.prototype.toFixed(4)` for a nonnegative
rational: round to four decimals (half away from zero) and render. -/
def toFixed4Pos (q : ℚ) : String :=
  let n : ℕ := (⌊q * 10000 + 1 / 2⌋).toNat
  natToStr (n / 10000) ++ "." ++ pad4 (n % 10000)

/-- Model of JavaScript `Number.prototype.toFixed(4)` (the balance and
max-sendable figures interpolated into user-facing messages). -/
def toFixed4 (q : ℚ) : String :=
  if q < 0 then "-" ++ toFixed4Pos (-q) else toFixed4Pos q

/-- Digit scanner: accumulated value, count of digits consumed, rest. -/
def scanDigits : ℕ → ℕ → List Char → ℕ × ℕ × List Char
  | acc, n, [] => (acc, n, [])
  | acc, n, c :: rest =>
    if c.isDigit then scanDigits (acc * 10 + (c.toNat - 48)) (n + 1) rest
    else (acc, n, c :: rest)

/-- Model of JavaScript `parseFloat` on plain decimal literals: optional sign,
digits with at most one decimal point, trailing characters ignored; `none`
models `NaN`.  (The exponent and `Infinity` spellings are not modelled; they
do not occur in the scenarios the claims name.) -/
def parseFloatQ (s : String) : Option ℚ :=
  let cs := s.data.dropWhile (·.isWhitespace)
  let signRest : Bool × List Char :=
    match cs with
    | '-' :: r => (true, r)
    | '+' :: r => (false, r)
    | r => (false, r)
  let neg := signRest.1
  let afterSign := signRest.2
  let intPart := scanDigits 0 0 afterSign
  let ip := intPart.1
  let iCnt := intPart.2.1
  match intPart.2.2 with
  | '.' :: r =>
    let fracPart := scanDigits 0 0 r
    let fp := fracPart.1
    let fCnt := fracPart.2.1
    if iCnt + fCnt = 0 then none
    else some ((if neg then -1 else 1) * ((ip : ℚ) + (fp : ℚ) / (10 : ℚ) ^ fCnt))
  | _ => if iCnt = 0 then none else some ((if neg then -1 else 1) * (ip : ℚ))

/-- Thrown JavaScript value reaching the `catch` block: an `Error` carrying a
message (`err instanceof Error`), or any other thrown value. -/
inductive JsThrown where
  | jsError (msg : String)
  | nonError
deriving DecidableEq

/-- Message of the `Error` thrown when `smartWalletPubkey` is absent (direct
variant line 97) or `publicKey`/`connected` is absent (standard variant
line 67). -/
def msgWalletNotConnected : String := "Wallet not connected"

/-- Message of the `Error` thrown by the direct variant when `isConnected` or
`wallet` is falsy (line 101). -/
def msgReconnect : String := "Please reconnect your wallet"

/-- Message of the error thrown by the external `new PublicKey(...)`
constructor on a malformed address (external web3 library). -/
def msgInvalidPk : String := "Invalid public key input"

/-- Message of the `Error` thrown when the parsed amount is `NaN` or `≤ 0`. -/
def msgInvalidAmount : String := "Invalid amount"

/-- Message of the `Error` thrown when the amount exceeds the known balance. -/
def msgInsufficientBalance : String := "Insufficient balance"

/-- Message of the `Error` thrown when the amount exceeds
`maxSendable = max(0, balance - 0.001)` (template literal interpolating
`maxSendable.toFixed(4)`). -/
def amountTooHighMsg (maxSendable : ℚ) : String :=
  "Amount too high. Keep at least 0.001 SOL for rent. Max sendable: "
    ++ toFixed4 maxSendable ++ " SOL"

/-- User-facing message for on-chain insufficient-funds program errors,
interpolating the currently known balance via toFixed-four or the literal zero
when the balance is unknown. -/
def insufficientFundsMsg (balance : Option ℚ) : String :=
  "Insufficient funds. Your balance: "
    ++ (match balance with | some b => toFixed4 b | none => "0")
    ++ " SOL. You need to keep at least 0.001 SOL for rent. Try a smaller amount or fund your wallet using the faucet."

/-- Error classification of the direct variant (`catch` block, part_000 lines
159-174): substring patterns tried in order, first match wins, otherwise the
raw message is surfaced. -/
def classifyDirect (msg : String) (balance : Option ℚ) : String :=
  if containsSub msg "Signing failed" then
    "Signing failed. Please ensure you authenticate with your passkey."
  else if containsSub msg "User rejected" then
    "Transaction was cancelled."
  else if containsSub msg "Transaction too large" || containsSub msg "too large" then
    "Transaction too large. The transaction has been optimized with V0 format. If this persists, please try a smaller amount or contact support."
  else if containsSub msg "custom program error: 0x1" || containsSub msg "custom program error: 0x2" then
    insufficientFundsMsg balance
  else if containsSub msg "Attempt to debit an account but found no record of a prior credit" then
    "Account not funded. Please add SOL to your wallet using the faucet."
  else if containsSub msg "Transaction simulation failed" then
    "Transaction simulation failed. This may be due to insufficient funds or network issues. Please check your balance and try again."
  else msg

/-- Error classification of the wallet-standard variant (`catch` block,
AppWalletStandard lines 117-131): same patterns but the first two checks are
swapped and the too-large message omits the V0-format sentence. -/
def classifyStd (msg : String) (balance : Option ℚ) : String :=
  if containsSub msg "User rejected" then
    "Transaction was cancelled."
  else if containsSub msg "Signing failed" then
    "Signing failed. Please ensure you authenticate with your passkey."
  else if containsSub msg "Transaction too large" || containsSub msg "too large" then
    "Transaction too large. If this persists, please try a smaller amount or contact support."
  else if containsSub msg "custom program error: 0x1" || containsSub msg "custom program error: 0x2" then
    insufficientFundsMsg balance
  else if containsSub msg "Attempt to debit an account but found no record of a prior credit" then
    "Account not funded. Please add SOL to your wallet using the faucet."
  else if containsSub msg "Transaction simulation failed" then
    "Transaction simulation failed. This may be due to insufficient funds or network issues. Please check your balance and try again."
  else msg

/-- The `catch` prelude common to both variants: `errorMessage` starts as
"Transaction failed" and is replaced by the classified `err.message` only when
the thrown value is an `Error`. -/
def classifiedError (classify : String → Option ℚ → String)
    (err : JsThrown) (balance : Option ℚ) : String :=
  match err with
  | .nonError => "Transaction failed"
  | .jsError m => classify m balance

/-- The `refreshBalance` callback, identical in both variants: return
immediately when the account identifier is absent; otherwise query the balance
(`connection.getBalance`), on success store `lamports / LAMPORTS_PER_SOL`, on
failure only log (`console.error`) and leave the state untouched.  `qres` is
the outcome of the RPC round trip. -/
def refreshBalance (pk : Option PubKey) (qres : Except String ℤ)
    (s : DashState) : DashState × List Ev :=
  match pk with
  | none => (s, [])
  | some p =>
    match qres with
    | .error e => (s, [Ev.balanceQueryEv p, Ev.logErrorEv e])
    | .ok lam =>
      ({ s with balance := some ((lam : ℚ) / 1000000000) },
       [Ev.balanceQueryEv p, Ev.setBalanceEv ((lam : ℚ) / 1000000000)])

/-- Connection context read by the direct variant handler:
`smartWalletPubkey`, `isConnected` and the `wallet` object from
`useWallet()` of the LazorKit SDK. -/
structure DirectCtx where
  smartWalletPubkey : Option PubKey
  isConnected : Bool
  hasWallet : Bool
deriving DecidableEq

/-- Connection context read by the wallet-standard variant handler:
`publicKey` and `connected` from the adapter `useWallet()`. -/
structure StdCtx where
  publicKey : Option PubKey
  connected : Bool
deriving DecidableEq

/-- Model of JavaScript `String.prototype.trim` (applied to the recipient
before parsing): strip whitespace from both ends. -/
def trimWs (s : String) : String :=
  ⟨((s.data.dropWhile (·.isWhitespace)).reverse.dropWhile (·.isWhitespace)).reverse⟩

/-- The validation block shared verbatim by both variants (part_000 lines
104-121, AppWalletStandard lines 70-87): parse the trimmed recipient (the
external `new PublicKey` constructor throws on a malformed address), parse the
amount (`parseFloat`, rejecting `NaN` and non-positive values), then — only
when the balance is known — reject amounts above the balance and amounts above
`maxSendable = max(0, balance - RENT_RESERVE)` with `RENT_RESERVE = 0.001`.
When the balance is `null` both balance rules are skipped.  (`balance || 0`
coincides with `balance` whenever the balance is non-null, since the JS falsy
value `0` is mapped to `0`.)  On success returns the parsed recipient and
amount. -/
def validateTransfer (parsePk : String → Option PubKey)
    (recipient amount : String) (balance : Option ℚ) :
    Except JsThrown (PubKey × ℚ) :=
  match parsePk (trimWs recipient) with
  | none => .error (.jsError msgInvalidPk)
  | some rcpt =>
    match parseFloatQ amount with
    | none => .error (.jsError msgInvalidAmount)
    | some amt =>
      if amt ≤ 0 then .error (.jsError msgInvalidAmount)
      else
        match balance with
        | none => .ok (rcpt, amt)
        | some b =>
          if amt > b then .error (.jsError msgInsufficientBalance)
          else if amt > max 0 (b - 1 / 1000) then
            .error (.jsError (amountTooHighMsg (max 0 (b - 1 / 1000))))
          else .ok (rcpt, amt)

/-- The part of the `try` block shared verbatim by both variants once the
connection guards have passed: the shared validation, the sign-and-submit
call (`lamports: amountNum * LAMPORTS_PER_SOL`, with `LAMPORTS_PER_SOL =
10^9`), and the success tail (part_000 lines 104-154, AppWalletStandard lines
70-112): `setTxHash(signature)`, clear both form fields, then
`await refreshBalance()`. -/
def tryCore (parsePk : String → Option PubKey) (pk : PubKey)
    (provider : Except JsThrown String) (qres : Except String ℤ)
    (s : DashState) : Except JsThrown DashState × List Ev :=
  match validateTransfer parsePk s.recipient s.amount s.balance with
  | .error e => (.error e, [])
  | .ok (rcpt, amt) =>
    match provider with
    | .error e => (.error e, [Ev.submitEv rcpt (amt * 1000000000)])
    | .ok sig =>
      let s1 := { s with txHash := some sig, recipient := "", amount := "" }
      let refreshed := refreshBalance (some pk) qres s1
      (.ok refreshed.1,
       [Ev.submitEv rcpt (amt * 1000000000), Ev.setTxHashEv (some sig),
        Ev.setRecipientEv "", Ev.setAmountEv ""] ++ refreshed.2)

/-- The `try` block of the direct variant handler (part_000 lines 95-154):
the two connection guards (`!smartWalletPubkey`, then
`!isConnected || !wallet`) followed by the shared core.  Returns either the
thrown value or the updated state, along with the effects emitted. -/
def tryBodyDirect (parsePk : String → Option PubKey) (ctx : DirectCtx)
    (provider : Except JsThrown String) (qres : Except String ℤ)
    (s : DashState) : Except JsThrown DashState × List Ev :=
  match ctx.smartWalletPubkey with
  | none => (.error (.jsError msgWalletNotConnected), [])
  | some pk =>
    if ¬(ctx.isConnected ∧ ctx.hasWallet) then
      (.error (.jsError msgReconnect), [])
    else
      tryCore parsePk pk provider qres s

/-- The direct variant `handleSendTransaction` (part_000 lines 89-180): clear
both outcome fields, set `sending`, run the `try` body; on a thrown value
classify it against the balance read at throw time and store it in `txError`;
finally clear `sending`. -/
def handleSendTransactionDirect (parsePk : String → Option PubKey)
    (ctx : DirectCtx) (provider : Except JsThrown String)
    (qres : Except String ℤ) (s : DashState) : DashState × List Ev :=
  let s0 : DashState := { s with txError := "", txHash := none, sending := true }
  let pre : List Ev := [Ev.setTxErrorEv "", Ev.setTxHashEv none, Ev.setSendingEv true]
  match tryBodyDirect parsePk ctx provider qres s0 with
  | (.ok s1, evs) =>
    ({ s1 with sending := false }, pre ++ evs ++ [Ev.setSendingEv false])
  | (.error err, evs) =>
    let m := classifiedError classifyDirect err s0.balance
    ({ s0 with txError := m, sending := false },
     pre ++ evs ++ [Ev.setTxErrorEv m, Ev.setSendingEv false])

/-- The `try` block of the wallet-standard variant handler (AppWalletStandard
lines 65-112): a single connection guard, then the identical validation,
submission via `sendTransaction`, and the identical success tail. -/
def tryBodyStd (parsePk : String → Option PubKey) (ctx : StdCtx)
    (provider : Except JsThrown String) (qres : Except String ℤ)
    (s : DashState) : Except JsThrown DashState × List Ev :=
  match ctx.publicKey with
  | none => (.error (.jsError msgWalletNotConnected), [])
  | some pk =>
    if ¬ctx.connected then
      (.error (.jsError msgWalletNotConnected), [])
    else
      tryCore parsePk pk provider qres s

/-- The wallet-standard variant `handleSendTransaction` (AppWalletStandard
lines 59-138): identical shell around its own `try` body and classifier. -/
def handleSendTransactionStd (parsePk : String → Option PubKey)
    (ctx : StdCtx) (provider : Except JsThrown String)
    (qres : Except String ℤ) (s : DashState) : DashState × List Ev :=
  let s0 : DashState := { s with txError := "", txHash := none, sending := true }
  let pre : List Ev := [Ev.setTxErrorEv "", Ev.setTxHashEv none, Ev.setSendingEv true]
  match tryBodyStd parsePk ctx provider qres s0 with
  | (.ok s1, evs) =>
    ({ s1 with sending := false }, pre ++ evs ++ [Ev.setSendingEv false])
  | (.error err, evs) =>
    let m := classifiedError classifyStd err s0.balance
    ({ s0 with txError := m, sending := false },
     pre ++ evs ++ [Ev.setTxErrorEv m, Ev.setSendingEv false])

/-- The Cancel button of the send modal (both variants): close the modal and
clear the error and both form fields. -/
def cancelSend (s : DashState) : DashState :=
  { s with showSendModal := false, txError := "", recipient := "", amount := "" }

/-- Mounted-component state of the direct variant: `AppContent` renders
`WalletDashboard` only while `isConnected`, so the dashboard hook state
exists (is mounted) exactly when the wallet is connected. -/
structure DirectApp where
  isConnected : Bool
  dash : Option DashState
deriving DecidableEq

/-- Disconnect in the direct variant: `isConnected` becomes false, so
`AppContent` renders `WelcomeScreen` and `WalletDashboard` unmounts,
discarding all of its hook state. -/
def directDisconnect (_s : DirectApp) : DirectApp :=
  { isConnected := false, dash := none }

/-- Connect in the direct variant: `WalletDashboard` mounts afresh with its
initial hook values. -/
def directConnect (_s : DirectApp) : DirectApp :=
  { isConnected := true, dash := some initDashState }

/-- Mounted-component state of the wallet-standard variant: `WalletDashboard`
is always rendered inside `AppProviders` and merely early-returns the connect
screen while `connected` is false, so its hook state persists across
disconnect. -/
structure StdApp where
  connected : Bool
  dash : DashState
deriving DecidableEq

/-- Disconnect in the wallet-standard variant: only the adapter connection
flag changes; the dashboard component stays mounted and its hook state
(balance, form fields, modal) is retained. -/
def stdDisconnect (s : StdApp) : StdApp :=
  { s with connected := false }

/-- No sign-and-submit call occurs in the given effect trace (the submission
attempt was rejected before reaching the wallet capability provider). -/
def noSubmitIn (tr : List Ev) : Prop :=
  ∀ r l, Ev.submitEv r l ∉ tr

/-- The rejection condition claimed for a known balance `b`: the parsed amount
is `NaN`, non-positive, above the balance, or above
`max 0 (b - 0.001)`. -/
def rejectCond (a : Option ℚ) (b : ℚ) : Prop :=
  a = none ∨ ∃ q, a = some q ∧ (q ≤ 0 ∨ b < q ∨ max 0 (b - 1 / 1000) < q)

/-- Ordering property claimed of a trace: every recording of a transaction
identifier is preceded by a completed balance refresh (a stored-balance
update). -/
def refreshBeforeSuccess (tr : List Ev) : Prop :=
  ∀ (i : ℕ) (sig : String), tr[i]? = some (Ev.setTxHashEv (some sig)) →
    ∃ j : ℕ, j < i ∧ ∃ q : ℚ, tr[j]? = some (Ev.setBalanceEv q)

/-- Exactly one outcome field is populated: a transaction identifier with no
error message, or a nonempty error message with no identifier. -/
def exactlyOneOutcome (s : DashState) : Prop :=
  (s.txHash ≠ none ∧ s.txError = "") ∨ (s.txHash = none ∧ s.txError ≠ "")

/-- The claimed disconnect behaviour of the wallet-standard variant: balance
reset to unknown and the send form state cleared. -/
def stdDisconnectClears : Prop :=
  ∀ s : StdApp,
    (stdDisconnect s).dash.balance = none ∧
    (stdDisconnect s).dash.recipient = "" ∧
    (stdDisconnect s).dash.amount = "" ∧
    (stdDisconnect s).dash.txError = "" ∧
    (stdDisconnect s).dash.showSendModal = false

/-- C9: when the spendable-account identifier is absent, `refreshBalance`
returns immediately: the state (in particular the stored balance) is
unchanged and no effect — in particular no balance query — is emitted.
This is the common guard `if (!smartWalletPubkey) return;` /
`if (!publicKey) return;` of both variants. -/
theorem refreshBalance_noop_when_account_absent :
    ∀ (qres : Except String ℤ) (s : DashState),
      refreshBalance none qres s = (s, []) := by
  intro qres s
  rfl

/-- C6: a failed balance query is swallowed: the state is returned unchanged
(so a known balance is never regressed to unknown) and the only effects are
the query itself and a console log — never a stored-balance update. -/
theorem refreshBalance_failure_swallowed :
    ∀ (pk : Option PubKey) (e : String) (s : DashState),
      (refreshBalance pk (Except.error e) s).1 = s ∧
      ∀ q, Ev.setBalanceEv q ∉ (refreshBalance pk (Except.error e) s).2 := by
  intro pk e s
  cases pk <;> simp [refreshBalance]

/-- C2 counterexample: in the wallet-standard variant the dashboard stays
mounted across disconnect, so disconnecting does not reset the stored balance
to unknown: a state holding balance five and a non-empty form retains them. -/
theorem stdDisconnect_retains_state :
    ¬ stdDisconnectClears := by
  intro h
  have h5 := h ⟨true, { initDashState with
    balance := some 5, recipient := "destination", amount := "2" }⟩
  simp [stdDisconnect, initDashState] at h5

/-- C2 amended: disconnect resets the dashboard state only in the direct
variant, where `AppContent` unmounts `WalletDashboard` (a fresh mount starts
from the initial hook state); in the wallet-standard variant the component
stays mounted and disconnect leaves its entire hook state — balance and form
included — unchanged. -/
theorem disconnect_reset_by_variant :
    (∀ s : DirectApp,
       (directDisconnect s).dash = none ∧ (directDisconnect s).isConnected = false) ∧
    (∀ s : DirectApp, (directConnect s).dash = some initDashState) ∧
    (∀ s : StdApp,
       (stdDisconnect s).connected = false ∧ (stdDisconnect s).dash = s.dash) := by
  exact ⟨fun _ => ⟨rfl, rfl⟩, fun _ => rfl, fun _ => ⟨rfl, rfl⟩⟩

/-- C5 counterexample: the two classifiers are not behaviourally identical:
on the raw message "Transaction too large" the direct variant mentions the
V0-format optimization while the wallet-standard variant does not. -/
theorem classify_variants_differ :
    classifyDirect "Transaction too large" none ≠
      classifyStd "Transaction too large" none := by
  decide

/-- C5 amended: the two error classifiers agree on every raw message except
where they genuinely diverge: messages matching the transaction-too-large
patterns (different wording) and messages containing both "Signing failed"
and "User rejected" (swapped priority). -/
theorem classify_variants_agree_off_divergence :
    ∀ (m : String) (bal : Option ℚ),
      containsSub m "Transaction too large" = false →
      containsSub m "too large" = false →
      ¬(containsSub m "Signing failed" = true ∧ containsSub m "User rejected" = true) →
      classifyDirect m bal = classifyStd m bal := by
  intro m bal h1 h2 h3
  unfold classifyDirect classifyStd
  simp only [h1, h2, Bool.or_self, Bool.false_eq_true, if_false]
  by_cases hs : containsSub m "Signing failed" <;>
    by_cases hu : containsSub m "User rejected" <;>
    simp_all

/-- Witness for the amended C5 theorem at the concrete message
"User rejected the request". -/
theorem classify_agree_witness :
    containsSub "User rejected the request" "Transaction too large" = false ∧
    containsSub "User rejected the request" "too large" = false ∧
    classifyDirect "User rejected the request" none =
      classifyStd "User rejected the request" none :=
  ⟨by decide, by decide,
   classify_variants_agree_off_divergence "User rejected the request" none
     (by decide) (by decide) (by decide)⟩

lemma noSubmitIn_append {a b : List Ev} :
    noSubmitIn (a ++ b) ↔ noSubmitIn a ∧ noSubmitIn b := by
  simp [noSubmitIn, List.mem_append, not_or, forall_and]

lemma refreshBalance_keeps_form (pk : Option PubKey) (qres : Except String ℤ)
    (s : DashState) :
    (refreshBalance pk qres s).1.recipient = s.recipient ∧
    (refreshBalance pk qres s).1.amount = s.amount ∧
    (refreshBalance pk qres s).1.txHash = s.txHash ∧
    (refreshBalance pk qres s).1.txError = s.txError := by
  cases pk <;> cases qres <;> simp [refreshBalance]

lemma refreshBalance_no_submit (pk : Option PubKey) (qres : Except String ℤ)
    (s : DashState) : noSubmitIn (refreshBalance pk qres s).2 := by
  cases pk <;> cases qres <;> simp [refreshBalance, noSubmitIn]

lemma validateTransfer_error_iff (parsePk : String → Option PubKey)
    (recipient amount : String) (b : ℚ)
    (hr : ∃ r, parsePk (trimWs recipient) = some r) :
    (∃ e, validateTransfer parsePk recipient amount (some b) = Except.error e) ↔
      rejectCond (parseFloatQ amount) b := by
  obtain ⟨r, hr⟩ := hr
  unfold validateTransfer
  rw [hr]
  cases hA : parseFloatQ amount with
  | none => simp [rejectCond]
  | some q =>
    dsimp only
    rcases le_or_lt q 0 with h0 | h0
    · rw [if_pos h0]
      exact iff_of_true ⟨_, rfl⟩ (Or.inr ⟨q, rfl, Or.inl h0⟩)
    · rw [if_neg (not_le.mpr h0)]
      rcases lt_or_le b q with hb | hb
      · rw [if_pos hb]
        exact iff_of_true ⟨_, rfl⟩ (Or.inr ⟨q, rfl, Or.inr (Or.inl hb)⟩)
      · rw [if_neg (not_lt.mpr hb)]
        rcases lt_or_le (max 0 (b - 1 / 1000)) q with hm | hm
        · rw [if_pos hm]
          exact iff_of_true ⟨_, rfl⟩ (Or.inr ⟨q, rfl, Or.inr (Or.inr hm)⟩)
        · rw [if_neg (not_lt.mpr hm)]
          refine iff_of_false ?_ ?_
          · rintro ⟨e, he⟩
            exact absurd he (by simp)
          · rintro (h | ⟨q', hq', h⟩)
            · exact Option.noConfusion h
            · obtain rfl : q' = q := (Option.some.inj hq').symm
              rcases h with h | h | h
              · exact absurd h (not_le.mpr h0)
              · exact absurd h (not_lt.mpr hb)
              · exact absurd h (not_lt.mpr hm)

lemma tryCore_noSubmit_iff (parsePk : String → Option PubKey) (pk : PubKey)
    (prov : Except JsThrown String) (qres : Except String ℤ) (s : DashState) :
    noSubmitIn (tryCore parsePk pk prov qres s).2 ↔
      (∃ e, validateTransfer parsePk s.recipient s.amount s.balance =
        Except.error e) := by
  unfold tryCore
  cases hval : validateTransfer parsePk s.recipient s.amount s.balance with
  | error e => simp [noSubmitIn]
  | ok p =>
    obtain ⟨r, q⟩ := p
    cases prov with
    | error e =>
      dsimp only
      refine iff_of_false (fun hns => ?_) (by simp)
      exact hns r (q * 1000000000) (by simp)
    | ok sig =>
      dsimp only
      refine iff_of_false (fun hns => ?_) (by simp)
      exact hns r (q * 1000000000) (by simp)

lemma tryBodyDirect_connected (parsePk : String → Option PubKey)
    (ctx : DirectCtx) (pk : PubKey) (prov : Except JsThrown String)
    (qres : Except String ℤ) (s : DashState)
    (hpk : ctx.smartWalletPubkey = some pk) (hc : ctx.isConnected = true)
    (hw : ctx.hasWallet = true) :
    tryBodyDirect parsePk ctx prov qres s = tryCore parsePk pk prov qres s := by
  unfold tryBodyDirect
  rw [hpk]
  dsimp only
  rw [if_neg (by simp [hc, hw])]

lemma tryBodyStd_connected (parsePk : String → Option PubKey)
    (ctx : StdCtx) (pk : PubKey) (prov : Except JsThrown String)
    (qres : Except String ℤ) (s : DashState)
    (hpk : ctx.publicKey = some pk) (hc : ctx.connected = true) :
    tryBodyStd parsePk ctx prov qres s = tryCore parsePk pk prov qres s := by
  unfold tryBodyStd
  rw [hpk]
  dsimp only
  rw [if_neg (by simp [hc])]

lemma handleDirect_noSubmit_iff (parsePk : String → Option PubKey)
    (ctx : DirectCtx) (pk : PubKey) (prov : Except JsThrown String)
    (qres : Except String ℤ) (s : DashState)
    (hpk : ctx.smartWalletPubkey = some pk) (hc : ctx.isConnected = true)
    (hw : ctx.hasWallet = true) :
    noSubmitIn (handleSendTransactionDirect parsePk ctx prov qres s).2 ↔
      (∃ e, validateTransfer parsePk s.recipient s.amount s.balance =
        Except.error e) := by
  have hbody := tryBodyDirect_connected parsePk ctx pk prov qres
    { s with txError := "", txHash := none, sending := true } hpk hc hw
  have hiff := tryCore_noSubmit_iff parsePk pk prov qres
    { s with txError := "", txHash := none, sending := true }
  unfold handleSendTransactionDirect
  dsimp only
  rw [hbody]
  cases htc : tryCore parsePk pk prov qres
      { s with txError := "", txHash := none, sending := true } with
  | mk res evs =>
    rw [htc] at hiff
    dsimp only at hiff ⊢
    cases res with
    | error err =>
      dsimp only
      rw [noSubmitIn_append, noSubmitIn_append]
      simp only [hiff]
      constructor
      · rintro ⟨⟨_, h⟩, _⟩; exact h
      · intro h
        exact ⟨⟨by simp [noSubmitIn], h⟩, by simp [noSubmitIn]⟩
    | ok s1 =>
      dsimp only
      rw [noSubmitIn_append, noSubmitIn_append]
      simp only [hiff]
      constructor
      · rintro ⟨⟨_, h⟩, _⟩; exact h
      · intro h
        exact ⟨⟨by simp [noSubmitIn], h⟩, by simp [noSubmitIn]⟩

lemma handleStd_noSubmit_iff (parsePk : String → Option PubKey)
    (ctx : StdCtx) (pk : PubKey) (prov : Except JsThrown String)
    (qres : Except String ℤ) (s : DashState)
    (hpk : ctx.publicKey = some pk) (hc : ctx.connected = true) :
    noSubmitIn (handleSendTransactionStd parsePk ctx prov qres s).2 ↔
      (∃ e, validateTransfer parsePk s.recipient s.amount s.balance =
        Except.error e) := by
  have hbody := tryBodyStd_connected parsePk ctx pk prov qres
    { s with txError := "", txHash := none, sending := true } hpk hc
  have hiff := tryCore_noSubmit_iff parsePk pk prov qres
    { s with txError := "", txHash := none, sending := true }
  unfold handleSendTransactionStd
  dsimp only
  rw [hbody]
  cases htc : tryCore parsePk pk prov qres
      { s with txError := "", txHash := none, sending := true } with
  | mk res evs =>
    rw [htc] at hiff
    dsimp only at hiff
    cases res with
    | error err =>
      dsimp only
      rw [noSubmitIn_append, noSubmitIn_append]
      simp only [hiff]
      constructor
      · rintro ⟨⟨_, h⟩, _⟩; exact h
      · intro h
        exact ⟨⟨by simp [noSubmitIn], h⟩, by simp [noSubmitIn]⟩
    | ok s1 =>
      dsimp only
      rw [noSubmitIn_append, noSubmitIn_append]
      simp only [hiff]
      constructor
      · rintro ⟨⟨_, h⟩, _⟩; exact h
      · intro h
        exact ⟨⟨by simp [noSubmitIn], h⟩, by simp [noSubmitIn]⟩

lemma tryCore_validate_error (parsePk : String → Option PubKey) (pk : PubKey)
    (prov : Except JsThrown String) (qres : Except String ℤ) (s : DashState)
    (e : JsThrown)
    (hval : validateTransfer parsePk s.recipient s.amount s.balance =
      Except.error e) :
    tryCore parsePk pk prov qres s = (Except.error e, []) := by
  unfold tryCore
  rw [hval]

lemma handleDirect_of_validate_error (parsePk : String → Option PubKey)
    (ctx : DirectCtx) (pk : PubKey) (prov : Except JsThrown String)
    (qres : Except String ℤ) (s : DashState) (e : JsThrown)
    (hpk : ctx.smartWalletPubkey = some pk) (hc : ctx.isConnected = true)
    (hw : ctx.hasWallet = true)
    (hval : validateTransfer parsePk s.recipient s.amount s.balance =
      Except.error e) :
    handleSendTransactionDirect parsePk ctx prov qres s =
      ({ s with
          txError := classifiedError classifyDirect e s.balance,
          txHash := none, sending := false },
       [Ev.setTxErrorEv "", Ev.setTxHashEv none, Ev.setSendingEv true,
        Ev.setTxErrorEv (classifiedError classifyDirect e s.balance),
        Ev.setSendingEv false]) := by
  have hbody := tryBodyDirect_connected parsePk ctx pk prov qres
    { s with txError := "", txHash := none, sending := true } hpk hc hw
  unfold handleSendTransactionDirect
  dsimp only
  rw [hbody, tryCore_validate_error parsePk pk prov qres
    { s with txError := "", txHash := none, sending := true } e hval]
  simp

lemma handleStd_of_validate_error (parsePk : String → Option PubKey)
    (ctx : StdCtx) (pk : PubKey) (prov : Except JsThrown String)
    (qres : Except String ℤ) (s : DashState) (e : JsThrown)
    (hpk : ctx.publicKey = some pk) (hc : ctx.connected = true)
    (hval : validateTransfer parsePk s.recipient s.amount s.balance =
      Except.error e) :
    handleSendTransactionStd parsePk ctx prov qres s =
      ({ s with
          txError := classifiedError classifyStd e s.balance,
          txHash := none, sending := false },
       [Ev.setTxErrorEv "", Ev.setTxHashEv none, Ev.setSendingEv true,
        Ev.setTxErrorEv (classifiedError classifyStd e s.balance),
        Ev.setSendingEv false]) := by
  have hbody := tryBodyStd_connected parsePk ctx pk prov qres
    { s with txError := "", txHash := none, sending := true } hpk hc
  unfold handleSendTransactionStd
  dsimp only
  rw [hbody, tryCore_validate_error parsePk pk prov qres
    { s with txError := "", txHash := none, sending := true } e hval]
  simp

lemma parseFloatQ_9995 : parseFloatQ "0.9995" = some (9995 / 10000) := by
  simp [parseFloatQ, scanDigits]
  norm_num

lemma max_reserve_one : max 0 ((1 : ℚ) - 1 / 1000) = 999 / 1000 := by
  rw [max_eq_right] <;> norm_num

lemma toFixed4_999 : toFixed4 (999 / 1000 : ℚ) = "0.9990" := by
  have h : (⌊(999 / 1000 : ℚ) * 10000 + 1 / 2⌋ : ℤ) = 9990 := by norm_num
  rw [toFixed4]
  norm_num [toFixed4Pos, h]
  decide

lemma amountTooHighMsg_999 :
    amountTooHighMsg (999 / 1000 : ℚ) =
      "Amount too high. Keep at least 0.001 SOL for rent. Max sendable: 0.9990 SOL" := by
  rw [amountTooHighMsg, toFixed4_999]
  rfl

lemma classifyDirect_tooHigh999 :
    classifyDirect (amountTooHighMsg (999 / 1000 : ℚ)) (some 1) =
      amountTooHighMsg (999 / 1000 : ℚ) := by
  rw [amountTooHighMsg_999]
  decide

lemma classifyStd_tooHigh999 :
    classifyStd (amountTooHighMsg (999 / 1000 : ℚ)) (some 1) =
      amountTooHighMsg (999 / 1000 : ℚ) := by
  rw [amountTooHighMsg_999]
  decide

lemma validate_scenario2 :
    validateTransfer Option.some "R" "0.9995" (some 1) =
      Except.error (JsThrown.jsError (amountTooHighMsg (999 / 1000))) := by
  unfold validateTransfer
  rw [show trimWs "R" = "R" from by decide]
  dsimp only
  rw [parseFloatQ_9995]
  dsimp only
  rw [max_reserve_one]
  rw [if_neg (by norm_num), if_neg (by norm_num), if_pos (by norm_num)]

/-- C1: with the wallet connected, a parseable recipient and a known balance
`b`, the submission handler rejects (never reaches the sign-and-submit call)
exactly when the parsed amount is `NaN`, non-positive, above `b`, or above
`max 0 (b - 0.001)` — in both variants; and in the concrete Scenario 2
(balance one, amount string "0.9995") the attempt is rejected with the
below-reserve message reporting max sendable `0.999`. -/
theorem transfer_validation_reject_iff :
    (∀ (parsePk : String → Option PubKey) (ctx : DirectCtx) (pk : PubKey)
       (prov : Except JsThrown String) (qres : Except String ℤ)
       (s : DashState) (b : ℚ),
       ctx.smartWalletPubkey = some pk → ctx.isConnected = true →
       ctx.hasWallet = true →
       (∃ r, parsePk (trimWs s.recipient) = some r) → s.balance = some b →
       (noSubmitIn (handleSendTransactionDirect parsePk ctx prov qres s).2 ↔
         rejectCond (parseFloatQ s.amount) b)) ∧
    (∀ (parsePk : String → Option PubKey) (ctx : StdCtx) (pk : PubKey)
       (prov : Except JsThrown String) (qres : Except String ℤ)
       (s : DashState) (b : ℚ),
       ctx.publicKey = some pk → ctx.connected = true →
       (∃ r, parsePk (trimWs s.recipient) = some r) → s.balance = some b →
       (noSubmitIn (handleSendTransactionStd parsePk ctx prov qres s).2 ↔
         rejectCond (parseFloatQ s.amount) b)) ∧
    (∀ (prov : Except JsThrown String) (qres : Except String ℤ),
       (handleSendTransactionDirect Option.some ⟨some "W", true, true⟩ prov qres
          { initDashState with
            balance := some 1, recipient := "R", amount := "0.9995" }).1.txError =
         amountTooHighMsg (999 / 1000) ∧
       (handleSendTransactionStd Option.some ⟨some "W", true⟩ prov qres
          { initDashState with
            balance := some 1, recipient := "R", amount := "0.9995" }).1.txError =
         amountTooHighMsg (999 / 1000)) := by
  refine ⟨?_, ?_, ?_⟩
  · intro parsePk ctx pk prov qres s b hpk hc hw hr hb
    rw [handleDirect_noSubmit_iff parsePk ctx pk prov qres s hpk hc hw, hb]
    exact validateTransfer_error_iff parsePk s.recipient s.amount b hr
  · intro parsePk ctx pk prov qres s b hpk hc hr hb
    rw [handleStd_noSubmit_iff parsePk ctx pk prov qres s hpk hc, hb]
    exact validateTransfer_error_iff parsePk s.recipient s.amount b hr
  · intro prov qres
    constructor
    · rw [handleDirect_of_validate_error Option.some ⟨some "W", true, true⟩ "W"
        prov qres _ (JsThrown.jsError (amountTooHighMsg (999 / 1000)))
        rfl rfl rfl validate_scenario2]
      exact classifyDirect_tooHigh999
    · rw [handleStd_of_validate_error Option.some ⟨some "W", true⟩ "W"
        prov qres _ (JsThrown.jsError (amountTooHighMsg (999 / 1000)))
        rfl rfl validate_scenario2]
      exact classifyStd_tooHigh999

/-- Witness for the C1 theorem: concrete accepted configuration (balance one,
amount "0.5"). -/
theorem transfer_validation_reject_iff_witness :
    noSubmitIn (handleSendTransactionDirect Option.some ⟨some "W", true, true⟩
        (Except.ok "sig") (Except.ok 0)
        { initDashState with
          balance := some 1, recipient := "R", amount := "0.5" }).2 ↔
      rejectCond (parseFloatQ "0.5") 1 :=
  transfer_validation_reject_iff.1 Option.some ⟨some "W", true, true⟩ "W"
    (Except.ok "sig") (Except.ok 0) _ 1 rfl rfl rfl ⟨"R", by decide⟩ rfl

lemma validateTransfer_recipient_error (parsePk : String → Option PubKey)
    (recipient amount : String) (balance : Option ℚ)
    (h : parsePk (trimWs recipient) = none) :
    validateTransfer parsePk recipient amount balance =
      Except.error (JsThrown.jsError msgInvalidPk) := by
  unfold validateTransfer
  rw [h]

lemma validateTransfer_amount_nan (parsePk : String → Option PubKey)
    (recipient amount : String) (balance : Option ℚ) (r : PubKey)
    (hr : parsePk (trimWs recipient) = some r)
    (ha : parseFloatQ amount = none) :
    validateTransfer parsePk recipient amount balance =
      Except.error (JsThrown.jsError msgInvalidAmount) := by
  unfold validateTransfer
  rw [hr]
  dsimp only
  rw [ha]

lemma classifyDirect_raw (m : String) (bal : Option ℚ)
    (h1 : containsSub m "Signing failed" = false)
    (h2 : containsSub m "User rejected" = false)
    (h3 : containsSub m "Transaction too large" = false)
    (h4 : containsSub m "too large" = false)
    (h5 : containsSub m "custom program error: 0x1" = false)
    (h6 : containsSub m "custom program error: 0x2" = false)
    (h7 : containsSub m "Attempt to debit an account but found no record of a prior credit" = false)
    (h8 : containsSub m "Transaction simulation failed" = false) :
    classifyDirect m bal = m := by
  simp [classifyDirect, h1, h2, h3, h4, h5, h6, h7, h8]

lemma classifyStd_raw (m : String) (bal : Option ℚ)
    (h1 : containsSub m "Signing failed" = false)
    (h2 : containsSub m "User rejected" = false)
    (h3 : containsSub m "Transaction too large" = false)
    (h4 : containsSub m "too large" = false)
    (h5 : containsSub m "custom program error: 0x1" = false)
    (h6 : containsSub m "custom program error: 0x2" = false)
    (h7 : containsSub m "Attempt to debit an account but found no record of a prior credit" = false)
    (h8 : containsSub m "Transaction simulation failed" = false) :
    classifyStd m bal = m := by
  simp [classifyStd, h1, h2, h3, h4, h5, h6, h7, h8]

lemma tryBodyDirect_ok (parsePk : String → Option PubKey) (ctx : DirectCtx)
    (prov : Except JsThrown String) (qres : Except String ℤ) (s s1 : DashState)
    (evs : List Ev)
    (h : tryBodyDirect parsePk ctx prov qres s = (Except.ok s1, evs)) :
    ∃ pk, ctx.smartWalletPubkey = some pk ∧
      tryCore parsePk pk prov qres s = (Except.ok s1, evs) := by
  unfold tryBodyDirect at h
  cases hpk : ctx.smartWalletPubkey with
  | none => rw [hpk] at h; exact absurd h (by simp)
  | some pk =>
    rw [hpk] at h
    dsimp only at h
    split at h
    · exact absurd h (by simp)
    · exact ⟨pk, rfl, h⟩

lemma tryBodyStd_ok (parsePk : String → Option PubKey) (ctx : StdCtx)
    (prov : Except JsThrown String) (qres : Except String ℤ) (s s1 : DashState)
    (evs : List Ev)
    (h : tryBodyStd parsePk ctx prov qres s = (Except.ok s1, evs)) :
    ∃ pk, ctx.publicKey = some pk ∧
      tryCore parsePk pk prov qres s = (Except.ok s1, evs) := by
  unfold tryBodyStd at h
  cases hpk : ctx.publicKey with
  | none => rw [hpk] at h; exact absurd h (by simp)
  | some pk =>
    rw [hpk] at h
    dsimp only at h
    split at h
    · exact absurd h (by simp)
    · exact ⟨pk, rfl, h⟩

lemma tryCore_ok_shape (parsePk : String → Option PubKey) (pk : PubKey)
    (prov : Except JsThrown String) (qres : Except String ℤ) (s s1 : DashState)
    (evs : List Ev)
    (h : tryCore parsePk pk prov qres s = (Except.ok s1, evs)) :
    ∃ sig, prov = Except.ok sig ∧ s1.txHash = some sig ∧
      s1.recipient = "" ∧ s1.amount = "" ∧ s1.txError = s.txError := by
  unfold tryCore at h
  cases hval : validateTransfer parsePk s.recipient s.amount s.balance with
  | error e => rw [hval] at h; exact absurd h (by simp)
  | ok p =>
    obtain ⟨r, q⟩ := p
    rw [hval] at h
    cases prov with
    | error e => exact absurd h (by simp)
    | ok sig =>
      dsimp only at h
      have h1 : (refreshBalance (some pk) qres
          { s with txHash := some sig, recipient := "", amount := "" }).1 = s1 := by
        have := congrArg Prod.fst h
        simpa using this
      have hk := refreshBalance_keeps_form (some pk) qres
        { s with txHash := some sig, recipient := "", amount := "" }
      rw [h1] at hk
      exact ⟨sig, rfl, by rw [hk.2.2.1], by rw [hk.1], by rw [hk.2.1], by rw [hk.2.2.2]⟩

lemma tryCore_error_sources (parsePk : String → Option PubKey) (pk : PubKey)
    (prov : Except JsThrown String) (qres : Except String ℤ) (s : DashState)
    (err : JsThrown) (evs : List Ev)
    (h : tryCore parsePk pk prov qres s = (Except.error err, evs)) :
    validateTransfer parsePk s.recipient s.amount s.balance = Except.error err ∨
      prov = Except.error err := by
  unfold tryCore at h
  cases hval : validateTransfer parsePk s.recipient s.amount s.balance with
  | error e =>
    rw [hval] at h
    simp only [Prod.mk.injEq, Except.error.injEq] at h
    left
    rw [h.1]
  | ok p =>
    obtain ⟨r, q⟩ := p
    rw [hval] at h
    cases prov with
    | error e =>
      simp only [Prod.mk.injEq, Except.error.injEq] at h
      right
      rw [h.1]
    | ok sig => exact absurd h (by simp)

lemma tryBodyDirect_error_sources (parsePk : String → Option PubKey)
    (ctx : DirectCtx) (prov : Except JsThrown String) (qres : Except String ℤ)
    (s : DashState) (err : JsThrown) (evs : List Ev)
    (h : tryBodyDirect parsePk ctx prov qres s = (Except.error err, evs)) :
    err = JsThrown.jsError msgWalletNotConnected ∨
      err = JsThrown.jsError msgReconnect ∨
      validateTransfer parsePk s.recipient s.amount s.balance = Except.error err ∨
      prov = Except.error err := by
  unfold tryBodyDirect at h
  cases hpk : ctx.smartWalletPubkey with
  | none =>
    rw [hpk] at h
    simp only [Prod.mk.injEq, Except.error.injEq] at h
    exact Or.inl h.1.symm
  | some pk =>
    rw [hpk] at h
    dsimp only at h
    split at h
    · simp only [Prod.mk.injEq, Except.error.injEq] at h
      exact Or.inr (Or.inl h.1.symm)
    · exact Or.inr (Or.inr (tryCore_error_sources parsePk pk prov qres s err evs h))

lemma tryBodyStd_error_sources (parsePk : String → Option PubKey)
    (ctx : StdCtx) (prov : Except JsThrown String) (qres : Except String ℤ)
    (s : DashState) (err : JsThrown) (evs : List Ev)
    (h : tryBodyStd parsePk ctx prov qres s = (Except.error err, evs)) :
    err = JsThrown.jsError msgWalletNotConnected ∨
      validateTransfer parsePk s.recipient s.amount s.balance = Except.error err ∨
      prov = Except.error err := by
  unfold tryBodyStd at h
  cases hpk : ctx.publicKey with
  | none =>
    rw [hpk] at h
    simp only [Prod.mk.injEq, Except.error.injEq] at h
    exact Or.inl h.1.symm
  | some pk =>
    rw [hpk] at h
    dsimp only at h
    split at h
    · simp only [Prod.mk.injEq, Except.error.injEq] at h
      exact Or.inl h.1.symm
    · exact Or.inr (tryCore_error_sources parsePk pk prov qres s err evs h)

lemma validateTransfer_error_msgs (parsePk : String → Option PubKey)
    (recipient amount : String) (balance : Option ℚ) (err : JsThrown)
    (h : validateTransfer parsePk recipient amount balance = Except.error err) :
    err = JsThrown.jsError msgInvalidPk ∨
      err = JsThrown.jsError msgInvalidAmount ∨
      err = JsThrown.jsError msgInsufficientBalance ∨
      ∃ q, err = JsThrown.jsError (amountTooHighMsg q) := by
  unfold validateTransfer at h
  cases hr : parsePk (trimWs recipient) with
  | none => rw [hr] at h; simp only [Except.error.injEq] at h; exact Or.inl h.symm
  | some r =>
    rw [hr] at h
    dsimp only at h
    cases ha : parseFloatQ amount with
    | none =>
      rw [ha] at h
      simp only [Except.error.injEq] at h
      exact Or.inr (Or.inl h.symm)
    | some q =>
      rw [ha] at h
      dsimp only at h
      split at h
      · simp only [Except.error.injEq] at h
        exact Or.inr (Or.inl h.symm)
      · cases balance with
        | none => exact absurd h (by simp)
        | some b =>
          dsimp only at h
          split at h
          · simp only [Except.error.injEq] at h
            exact Or.inr (Or.inr (Or.inl h.symm))
          · split at h
            · simp only [Except.error.injEq] at h
              exact Or.inr (Or.inr (Or.inr ⟨_, h.symm⟩))
            · exact absurd h (by simp)

lemma strAppend3_ne_empty (x y z : String) (hx : x.data ≠ []) :
    x ++ y ++ z ≠ "" := by
  intro h
  apply hx
  have hd := congrArg String.data h
  rw [String.data_append, String.data_append] at hd
  rw [show ("" : String).data = [] from rfl] at hd
  exact (List.append_eq_nil.mp (List.append_eq_nil.mp hd).1).1

lemma amountTooHighMsg_ne_empty (q : ℚ) : amountTooHighMsg q ≠ "" :=
  strAppend3_ne_empty _ _ _ (by decide)

lemma insufficientFundsMsg_ne_empty (bal : Option ℚ) :
    insufficientFundsMsg bal ≠ "" :=
  strAppend3_ne_empty _ _ _ (by decide)

lemma classifyDirect_ne_empty (m : String) (bal : Option ℚ) (hm : m ≠ "") :
    classifyDirect m bal ≠ "" := by
  unfold classifyDirect
  split_ifs <;>
    first
      | exact hm
      | exact insufficientFundsMsg_ne_empty bal
      | decide

lemma classifyStd_ne_empty (m : String) (bal : Option ℚ) (hm : m ≠ "") :
    classifyStd m bal ≠ "" := by
  unfold classifyStd
  split_ifs <;>
    first
      | exact hm
      | exact insufficientFundsMsg_ne_empty bal
      | decide

lemma classifiedError_ne_empty (classify : String → Option ℚ → String)
    (err : JsThrown) (bal : Option ℚ)
    (hclass : ∀ m, m ≠ "" → classify m bal ≠ "")
    (herr : ∀ m, err = JsThrown.jsError m → m ≠ "") :
    classifiedError classify err bal ≠ "" := by
  cases err with
  | nonError =>
    show "Transaction failed" ≠ ""
    decide
  | jsError m => exact hclass m (herr m rfl)

lemma handleDirect_shape (parsePk : String → Option PubKey) (ctx : DirectCtx)
    (prov : Except JsThrown String) (qres : Except String ℤ) (s : DashState) :
    (∃ err evs,
       tryBodyDirect parsePk ctx prov qres
         { s with txError := "", txHash := none, sending := true } =
           (Except.error err, evs) ∧
       (handleSendTransactionDirect parsePk ctx prov qres s).1 =
         { s with
           txError := classifiedError classifyDirect err s.balance,
           txHash := none, sending := false }) ∨
    (∃ s1 evs,
       tryBodyDirect parsePk ctx prov qres
         { s with txError := "", txHash := none, sending := true } =
           (Except.ok s1, evs) ∧
       (handleSendTransactionDirect parsePk ctx prov qres s).1 =
         { s1 with sending := false }) := by
  unfold handleSendTransactionDirect
  dsimp only
  cases htb : tryBodyDirect parsePk ctx prov qres
      { s with txError := "", txHash := none, sending := true } with
  | mk res evs =>
    cases res with
    | error err => exact Or.inl ⟨err, evs, rfl, rfl⟩
    | ok s1 => exact Or.inr ⟨s1, evs, rfl, rfl⟩

lemma handleStd_shape (parsePk : String → Option PubKey) (ctx : StdCtx)
    (prov : Except JsThrown String) (qres : Except String ℤ) (s : DashState) :
    (∃ err evs,
       tryBodyStd parsePk ctx prov qres
         { s with txError := "", txHash := none, sending := true } =
           (Except.error err, evs) ∧
       (handleSendTransactionStd parsePk ctx prov qres s).1 =
         { s with
           txError := classifiedError classifyStd err s.balance,
           txHash := none, sending := false }) ∨
    (∃ s1 evs,
       tryBodyStd parsePk ctx prov qres
         { s with txError := "", txHash := none, sending := true } =
           (Except.ok s1, evs) ∧
       (handleSendTransactionStd parsePk ctx prov qres s).1 =
         { s1 with sending := false }) := by
  unfold handleSendTransactionStd
  dsimp only
  cases htb : tryBodyStd parsePk ctx prov qres
      { s with txError := "", txHash := none, sending := true } with
  | mk res evs =>
    cases res with
    | error err => exact Or.inl ⟨err, evs, rfl, rfl⟩
    | ok s1 => exact Or.inr ⟨s1, evs, rfl, rfl⟩

lemma tryCore_prov_error (parsePk : String → Option PubKey) (pk : PubKey)
    (prov : Except JsThrown String) (qres : Except String ℤ) (s : DashState)
    (r : PubKey) (q : ℚ) (e : JsThrown)
    (hval : validateTransfer parsePk s.recipient s.amount s.balance =
      Except.ok (r, q))
    (hprov : prov = Except.error e) :
    tryCore parsePk pk prov qres s =
      (Except.error e, [Ev.submitEv r (q * 1000000000)]) := by
  unfold tryCore
  rw [hval, hprov]

lemma handleDirect_of_prov_error (parsePk : String → Option PubKey)
    (ctx : DirectCtx) (pk : PubKey) (prov : Except JsThrown String)
    (qres : Except String ℤ) (s : DashState) (r : PubKey) (q : ℚ) (e : JsThrown)
    (hpk : ctx.smartWalletPubkey = some pk) (hc : ctx.isConnected = true)
    (hw : ctx.hasWallet = true)
    (hval : validateTransfer parsePk s.recipient s.amount s.balance =
      Except.ok (r, q))
    (hprov : prov = Except.error e) :
    handleSendTransactionDirect parsePk ctx prov qres s =
      ({ s with
          txError := classifiedError classifyDirect e s.balance,
          txHash := none, sending := false },
       [Ev.setTxErrorEv "", Ev.setTxHashEv none, Ev.setSendingEv true,
        Ev.submitEv r (q * 1000000000),
        Ev.setTxErrorEv (classifiedError classifyDirect e s.balance),
        Ev.setSendingEv false]) := by
  have hbody := tryBodyDirect_connected parsePk ctx pk prov qres
    { s with txError := "", txHash := none, sending := true } hpk hc hw
  unfold handleSendTransactionDirect
  dsimp only
  rw [hbody, tryCore_prov_error parsePk pk prov qres
    { s with txError := "", txHash := none, sending := true } r q e hval hprov]
  simp

lemma handleStd_of_prov_error (parsePk : String → Option PubKey)
    (ctx : StdCtx) (pk : PubKey) (prov : Except JsThrown String)
    (qres : Except String ℤ) (s : DashState) (r : PubKey) (q : ℚ) (e : JsThrown)
    (hpk : ctx.publicKey = some pk) (hc : ctx.connected = true)
    (hval : validateTransfer parsePk s.recipient s.amount s.balance =
      Except.ok (r, q))
    (hprov : prov = Except.error e) :
    handleSendTransactionStd parsePk ctx prov qres s =
      ({ s with
          txError := classifiedError classifyStd e s.balance,
          txHash := none, sending := false },
       [Ev.setTxErrorEv "", Ev.setTxHashEv none, Ev.setSendingEv true,
        Ev.submitEv r (q * 1000000000),
        Ev.setTxErrorEv (classifiedError classifyStd e s.balance),
        Ev.setSendingEv false]) := by
  have hbody := tryBodyStd_connected parsePk ctx pk prov qres
    { s with txError := "", txHash := none, sending := true } hpk hc
  unfold handleSendTransactionStd
  dsimp only
  rw [hbody, tryCore_prov_error parsePk pk prov qres
    { s with txError := "", txHash := none, sending := true } r q e hval hprov]
  simp

lemma handleDirect_success_trace (parsePk : String → Option PubKey)
    (ctx : DirectCtx) (pk : PubKey) (prov : Except JsThrown String)
    (qres : Except String ℤ) (s : DashState) (r : PubKey) (q : ℚ) (sig : String)
    (hpk : ctx.smartWalletPubkey = some pk) (hc : ctx.isConnected = true)
    (hw : ctx.hasWallet = true)
    (hval : validateTransfer parsePk s.recipient s.amount s.balance =
      Except.ok (r, q))
    (hprov : prov = Except.ok sig) :
    (handleSendTransactionDirect parsePk ctx prov qres s).2 =
      [Ev.setTxErrorEv "", Ev.setTxHashEv none, Ev.setSendingEv true,
       Ev.submitEv r (q * 1000000000), Ev.setTxHashEv (some sig),
       Ev.setRecipientEv "", Ev.setAmountEv ""] ++
      (refreshBalance (some pk) qres
        { s with
          txError := "", txHash := some sig, recipient := "", amount := "",
          sending := true }).2 ++
      [Ev.setSendingEv false] := by
  have hbody := tryBodyDirect_connected parsePk ctx pk prov qres
    { s with txError := "", txHash := none, sending := true } hpk hc hw
  unfold handleSendTransactionDirect
  dsimp only
  rw [hbody]
  unfold tryCore
  rw [hval, hprov]
  dsimp only
  cases qres <;> simp [refreshBalance]

lemma handleStd_success_trace (parsePk : String → Option PubKey)
    (ctx : StdCtx) (pk : PubKey) (prov : Except JsThrown String)
    (qres : Except String ℤ) (s : DashState) (r : PubKey) (q : ℚ) (sig : String)
    (hpk : ctx.publicKey = some pk) (hc : ctx.connected = true)
    (hval : validateTransfer parsePk s.recipient s.amount s.balance =
      Except.ok (r, q))
    (hprov : prov = Except.ok sig) :
    (handleSendTransactionStd parsePk ctx prov qres s).2 =
      [Ev.setTxErrorEv "", Ev.setTxHashEv none, Ev.setSendingEv true,
       Ev.submitEv r (q * 1000000000), Ev.setTxHashEv (some sig),
       Ev.setRecipientEv "", Ev.setAmountEv ""] ++
      (refreshBalance (some pk) qres
        { s with
          txError := "", txHash := some sig, recipient := "", amount := "",
          sending := true }).2 ++
      [Ev.setSendingEv false] := by
  have hbody := tryBodyStd_connected parsePk ctx pk prov qres
    { s with txError := "", txHash := none, sending := true } hpk hc
  unfold handleSendTransactionStd
  dsimp only
  rw [hbody]
  unfold tryCore
  rw [hval, hprov]
  dsimp only
  cases qres <;> simp [refreshBalance]

lemma classifyDirect_invalidPk (bal : Option ℚ) :
    classifyDirect msgInvalidPk bal = msgInvalidPk :=
  classifyDirect_raw _ _ (by decide) (by decide) (by decide) (by decide)
    (by decide) (by decide) (by decide) (by decide)

lemma classifyDirect_invalidAmount (bal : Option ℚ) :
    classifyDirect msgInvalidAmount bal = msgInvalidAmount :=
  classifyDirect_raw _ _ (by decide) (by decide) (by decide) (by decide)
    (by decide) (by decide) (by decide) (by decide)

lemma classifyStd_invalidPk (bal : Option ℚ) :
    classifyStd msgInvalidPk bal = msgInvalidPk :=
  classifyStd_raw _ _ (by decide) (by decide) (by decide) (by decide)
    (by decide) (by decide) (by decide) (by decide)

lemma classifyStd_invalidAmount (bal : Option ℚ) :
    classifyStd msgInvalidAmount bal = msgInvalidAmount :=
  classifyStd_raw _ _ (by decide) (by decide) (by decide) (by decide)
    (by decide) (by decide) (by decide) (by decide)

/-- C8: validation rules run in a fixed order with the first failure winning:
with the wallet connected, an unparseable recipient is rejected as the
public-key parse error regardless of the amount string and the balance, and a
well-formed recipient with a non-numeric amount is rejected as "Invalid
amount" for every balance, before any balance-based rule and before any
submission — in both variants. -/
theorem validation_order_first_failure_wins :
    (∀ (parsePk : String → Option PubKey) (ctx : DirectCtx) (pk : PubKey)
       (prov : Except JsThrown String) (qres : Except String ℤ) (s : DashState),
       ctx.smartWalletPubkey = some pk → ctx.isConnected = true →
       ctx.hasWallet = true →
       parsePk (trimWs s.recipient) = none →
       (handleSendTransactionDirect parsePk ctx prov qres s).1.txError =
           msgInvalidPk ∧
         noSubmitIn (handleSendTransactionDirect parsePk ctx prov qres s).2) ∧
    (∀ (parsePk : String → Option PubKey) (ctx : DirectCtx) (pk r : PubKey)
       (prov : Except JsThrown String) (qres : Except String ℤ) (s : DashState),
       ctx.smartWalletPubkey = some pk → ctx.isConnected = true →
       ctx.hasWallet = true →
       parsePk (trimWs s.recipient) = some r →
       parseFloatQ s.amount = none →
       (handleSendTransactionDirect parsePk ctx prov qres s).1.txError =
           msgInvalidAmount ∧
         noSubmitIn (handleSendTransactionDirect parsePk ctx prov qres s).2) ∧
    (∀ (parsePk : String → Option PubKey) (ctx : StdCtx) (pk : PubKey)
       (prov : Except JsThrown String) (qres : Except String ℤ) (s : DashState),
       ctx.publicKey = some pk → ctx.connected = true →
       parsePk (trimWs s.recipient) = none →
       (handleSendTransactionStd parsePk ctx prov qres s).1.txError =
           msgInvalidPk ∧
         noSubmitIn (handleSendTransactionStd parsePk ctx prov qres s).2) ∧
    (∀ (parsePk : String → Option PubKey) (ctx : StdCtx) (pk r : PubKey)
       (prov : Except JsThrown String) (qres : Except String ℤ) (s : DashState),
       ctx.publicKey = some pk → ctx.connected = true →
       parsePk (trimWs s.recipient) = some r →
       parseFloatQ s.amount = none →
       (handleSendTransactionStd parsePk ctx prov qres s).1.txError =
           msgInvalidAmount ∧
         noSubmitIn (handleSendTransactionStd parsePk ctx prov qres s).2) := by
  refine ⟨?_, ?_, ?_, ?_⟩
  · intro parsePk ctx pk prov qres s hpk hc hw hrn
    rw [handleDirect_of_validate_error parsePk ctx pk prov qres s _ hpk hc hw
      (validateTransfer_recipient_error parsePk s.recipient s.amount s.balance hrn)]
    exact ⟨classifyDirect_invalidPk s.balance, by simp [noSubmitIn]⟩
  · intro parsePk ctx pk r prov qres s hpk hc hw hr ha
    rw [handleDirect_of_validate_error parsePk ctx pk prov qres s _ hpk hc hw
      (validateTransfer_amount_nan parsePk s.recipient s.amount s.balance r hr ha)]
    exact ⟨classifyDirect_invalidAmount s.balance, by simp [noSubmitIn]⟩
  · intro parsePk ctx pk prov qres s hpk hc hrn
    rw [handleStd_of_validate_error parsePk ctx pk prov qres s _ hpk hc
      (validateTransfer_recipient_error parsePk s.recipient s.amount s.balance hrn)]
    exact ⟨classifyStd_invalidPk s.balance, by simp [noSubmitIn]⟩
  · intro parsePk ctx pk r prov qres s hpk hc hr ha
    rw [handleStd_of_validate_error parsePk ctx pk prov qres s _ hpk hc
      (validateTransfer_amount_nan parsePk s.recipient s.amount s.balance r hr ha)]
    exact ⟨classifyStd_invalidAmount s.balance, by simp [noSubmitIn]⟩

/-- Witness for the C8 theorem: amount "abc" with a well-formed recipient is
rejected as "Invalid amount" at balance seven. -/
theorem validation_order_witness :
    (handleSendTransactionDirect Option.some ⟨some "W", true, true⟩
        (Except.ok "sig") (Except.ok 0)
        { initDashState with
          balance := some 7, recipient := "R", amount := "abc" }).1.txError =
      msgInvalidAmount :=
  (validation_order_first_failure_wins.2.1 Option.some ⟨some "W", true, true⟩
    "W" "R" (Except.ok "sig") (Except.ok 0) _ rfl rfl rfl (by decide)
    (by simp [parseFloatQ, scanDigits])).1

/-- C10: when a submission attempt fails (no transaction identifier is
recorded), the recipient and amount form fields are left exactly as the user
entered them; they are cleared only by a successful submission or by the
explicit Cancel action — in both variants. -/
theorem form_state_on_outcome :
    (∀ (parsePk : String → Option PubKey) (ctx : DirectCtx)
       (prov : Except JsThrown String) (qres : Except String ℤ) (s : DashState),
       (handleSendTransactionDirect parsePk ctx prov qres s).1.txHash = none →
       (handleSendTransactionDirect parsePk ctx prov qres s).1.recipient =
           s.recipient ∧
         (handleSendTransactionDirect parsePk ctx prov qres s).1.amount =
           s.amount) ∧
    (∀ (parsePk : String → Option PubKey) (ctx : DirectCtx)
       (prov : Except JsThrown String) (qres : Except String ℤ) (s : DashState)
       (sig : String),
       (handleSendTransactionDirect parsePk ctx prov qres s).1.txHash = some sig →
       (handleSendTransactionDirect parsePk ctx prov qres s).1.recipient = "" ∧
         (handleSendTransactionDirect parsePk ctx prov qres s).1.amount = "") ∧
    (∀ (parsePk : String → Option PubKey) (ctx : StdCtx)
       (prov : Except JsThrown String) (qres : Except String ℤ) (s : DashState),
       (handleSendTransactionStd parsePk ctx prov qres s).1.txHash = none →
       (handleSendTransactionStd parsePk ctx prov qres s).1.recipient =
           s.recipient ∧
         (handleSendTransactionStd parsePk ctx prov qres s).1.amount =
           s.amount) ∧
    (∀ (parsePk : String → Option PubKey) (ctx : StdCtx)
       (prov : Except JsThrown String) (qres : Except String ℤ) (s : DashState)
       (sig : String),
       (handleSendTransactionStd parsePk ctx prov qres s).1.txHash = some sig →
       (handleSendTransactionStd parsePk ctx prov qres s).1.recipient = "" ∧
         (handleSendTransactionStd parsePk ctx prov qres s).1.amount = "") ∧
    (∀ s : DashState,
       (cancelSend s).recipient = "" ∧ (cancelSend s).amount = "" ∧
         (cancelSend s).txError = "" ∧ (cancelSend s).showSendModal = false) := by
  refine ⟨?_, ?_, ?_, ?_, fun s => ⟨rfl, rfl, rfl, rfl⟩⟩
  · intro parsePk ctx prov qres s htx
    rcases handleDirect_shape parsePk ctx prov qres s with
      ⟨err, evs, htb, hres⟩ | ⟨s1, evs, htb, hres⟩
    · rw [hres]
      exact ⟨rfl, rfl⟩
    · obtain ⟨pk, hpk, hcore⟩ := tryBodyDirect_ok parsePk ctx prov qres _ s1 evs htb
      obtain ⟨sig, _, hsig, _, _, _⟩ := tryCore_ok_shape parsePk pk prov qres _ s1 evs hcore
      rw [hres] at htx
      simp only at htx
      rw [htx] at hsig
      exact absurd hsig (by simp)
  · intro parsePk ctx prov qres s sig htx
    rcases handleDirect_shape parsePk ctx prov qres s with
      ⟨err, evs, htb, hres⟩ | ⟨s1, evs, htb, hres⟩
    · rw [hres] at htx
      exact absurd htx (by simp)
    · obtain ⟨pk, hpk, hcore⟩ := tryBodyDirect_ok parsePk ctx prov qres _ s1 evs htb
      obtain ⟨sig', _, _, hrec, hamt, _⟩ :=
        tryCore_ok_shape parsePk pk prov qres _ s1 evs hcore
      rw [hres]
      exact ⟨hrec, hamt⟩
  · intro parsePk ctx prov qres s htx
    rcases handleStd_shape parsePk ctx prov qres s with
      ⟨err, evs, htb, hres⟩ | ⟨s1, evs, htb, hres⟩
    · rw [hres]
      exact ⟨rfl, rfl⟩
    · obtain ⟨pk, hpk, hcore⟩ := tryBodyStd_ok parsePk ctx prov qres _ s1 evs htb
      obtain ⟨sig, _, hsig, _, _, _⟩ := tryCore_ok_shape parsePk pk prov qres _ s1 evs hcore
      rw [hres] at htx
      simp only at htx
      rw [htx] at hsig
      exact absurd hsig (by simp)
  · intro parsePk ctx prov qres s sig htx
    rcases handleStd_shape parsePk ctx prov qres s with
      ⟨err, evs, htb, hres⟩ | ⟨s1, evs, htb, hres⟩
    · rw [hres] at htx
      exact absurd htx (by simp)
    · obtain ⟨pk, hpk, hcore⟩ := tryBodyStd_ok parsePk ctx prov qres _ s1 evs htb
      obtain ⟨sig', _, _, hrec, hamt, _⟩ :=
        tryCore_ok_shape parsePk pk prov qres _ s1 evs hcore
      rw [hres]
      exact ⟨hrec, hamt⟩

/-- Witness for the C10 theorem: a failed provider call leaves the concrete
form fields "R" and "abc" untouched. -/
theorem form_state_on_outcome_witness :
    (handleSendTransactionDirect Option.some ⟨some "W", true, true⟩
        (Except.error (JsThrown.jsError "boom")) (Except.ok 0)
        { initDashState with
          balance := some 1, recipient := "R", amount := "abc" }).1.txHash =
        none ∧
    (handleSendTransactionDirect Option.some ⟨some "W", true, true⟩
        (Except.error (JsThrown.jsError "boom")) (Except.ok 0)
        { initDashState with
          balance := some 1, recipient := "R", amount := "abc" }).1.recipient =
        "R" ∧
      (handleSendTransactionDirect Option.some ⟨some "W", true, true⟩
        (Except.error (JsThrown.jsError "boom")) (Except.ok 0)
        { initDashState with
          balance := some 1, recipient := "R", amount := "abc" }).1.amount =
        "abc" := by
  have hnone : (handleSendTransactionDirect Option.some ⟨some "W", true, true⟩
      (Except.error (JsThrown.jsError "boom")) (Except.ok 0)
      { initDashState with
        balance := some 1, recipient := "R", amount := "abc" }).1.txHash =
      none := by
    rw [handleDirect_of_validate_error Option.some ⟨some "W", true, true⟩ "W"
      (Except.error (JsThrown.jsError "boom")) (Except.ok 0) _ _ rfl rfl rfl
      (validateTransfer_amount_nan Option.some "R" "abc" (some 1) "R"
        (by decide) (by simp [parseFloatQ, scanDigits]))]
  exact ⟨hnone,
    form_state_on_outcome.1 Option.some ⟨some "W", true, true⟩
      (Except.error (JsThrown.jsError "boom")) (Except.ok 0) _ hnone⟩

lemma parseFloatQ_05 : parseFloatQ "0.5" = some (1 / 2) := by
  simp [parseFloatQ, scanDigits]
  norm_num

lemma validate_ok_05 :
    validateTransfer Option.some "R" "0.5" (some 1) = Except.ok ("R", 1 / 2) := by
  unfold validateTransfer
  rw [show trimWs "R" = "R" from by decide]
  dsimp only
  rw [parseFloatQ_05]
  dsimp only
  rw [max_reserve_one]
  rw [if_neg (by norm_num), if_neg (by norm_num), if_neg (by norm_num)]

/-- C7 counterexample: when the provider rejects with an `Error` whose message
is the empty string, the classifier returns the raw empty message, so after
the handler completes neither outcome field is populated (`txHash = none` and
`txError = ""`), refuting "never neither" as stated. -/
theorem outcome_neither_on_empty_message :
    ¬ exactlyOneOutcome (handleSendTransactionDirect Option.some
        ⟨some "W", true, true⟩ (Except.error (JsThrown.jsError ""))
        (Except.ok 0)
        { initDashState with
          balance := some 1, recipient := "R", amount := "0.5" }).1 := by
  rw [handleDirect_of_prov_error Option.some ⟨some "W", true, true⟩ "W"
    (Except.error (JsThrown.jsError "")) (Except.ok 0) _ "R" (1 / 2)
    (JsThrown.jsError "") rfl rfl rfl validate_ok_05 rfl]
  intro h
  rcases h with ⟨h1, _⟩ | ⟨_, h2⟩
  · exact h1 rfl
  · apply h2
    show classifyDirect "" (some 1) = ""
    decide

/-- C7 amended: provided every provider failure carries a nonempty `Error`
message (non-`Error` throws are covered by the fixed "Transaction failed"
fallback), exactly one outcome field is populated after the handler completes
— a transaction identifier with an empty error, or a nonempty classified
error with no identifier — and the handler always returns normally (it is a
total function, so no rejection escapes it). -/
theorem outcome_exclusive :
    (∀ (parsePk : String → Option PubKey) (ctx : DirectCtx)
       (prov : Except JsThrown String) (qres : Except String ℤ) (s : DashState),
       (∀ m, prov = Except.error (JsThrown.jsError m) → m ≠ "") →
       exactlyOneOutcome
         (handleSendTransactionDirect parsePk ctx prov qres s).1) ∧
    (∀ (parsePk : String → Option PubKey) (ctx : StdCtx)
       (prov : Except JsThrown String) (qres : Except String ℤ) (s : DashState),
       (∀ m, prov = Except.error (JsThrown.jsError m) → m ≠ "") →
       exactlyOneOutcome
         (handleSendTransactionStd parsePk ctx prov qres s).1) := by
  constructor
  · intro parsePk ctx prov qres s hprov
    rcases handleDirect_shape parsePk ctx prov qres s with
      ⟨err, evs, htb, hres⟩ | ⟨s1, evs, htb, hres⟩
    · rw [hres]
      right
      refine ⟨rfl, ?_⟩
      have herr : ∀ m, err = JsThrown.jsError m → m ≠ "" := by
        rcases tryBodyDirect_error_sources parsePk ctx prov qres _ err evs htb with
          h | h | h | h
        · intro m hm; rw [h] at hm; cases hm; decide
        · intro m hm; rw [h] at hm; cases hm; decide
        · rcases validateTransfer_error_msgs parsePk _ _ _ err h with
            h' | h' | h' | ⟨q, h'⟩
          · intro m hm; rw [h'] at hm; cases hm; decide
          · intro m hm; rw [h'] at hm; cases hm; decide
          · intro m hm; rw [h'] at hm; cases hm; decide
          · intro m hm
            rw [h'] at hm
            cases hm
            exact amountTooHighMsg_ne_empty q
        · intro m hm
          rw [hm] at h
          exact hprov m h
      exact classifiedError_ne_empty classifyDirect err s.balance
        (fun m hm => classifyDirect_ne_empty m s.balance hm) herr
    · obtain ⟨pk, hpk, hcore⟩ := tryBodyDirect_ok parsePk ctx prov qres _ s1 evs htb
      obtain ⟨sig, _, hsig, _, _, herr⟩ :=
        tryCore_ok_shape parsePk pk prov qres _ s1 evs hcore
      rw [hres]
      left
      constructor
      · show s1.txHash ≠ none
        rw [hsig]
        simp
      · show s1.txError = ""
        rw [herr]
  · intro parsePk ctx prov qres s hprov
    rcases handleStd_shape parsePk ctx prov qres s with
      ⟨err, evs, htb, hres⟩ | ⟨s1, evs, htb, hres⟩
    · rw [hres]
      right
      refine ⟨rfl, ?_⟩
      have herr : ∀ m, err = JsThrown.jsError m → m ≠ "" := by
        rcases tryBodyStd_error_sources parsePk ctx prov qres _ err evs htb with
          h | h | h
        · intro m hm; rw [h] at hm; cases hm; decide
        · rcases validateTransfer_error_msgs parsePk _ _ _ err h with
            h' | h' | h' | ⟨q, h'⟩
          · intro m hm; rw [h'] at hm; cases hm; decide
          · intro m hm; rw [h'] at hm; cases hm; decide
          · intro m hm; rw [h'] at hm; cases hm; decide
          · intro m hm
            rw [h'] at hm
            cases hm
            exact amountTooHighMsg_ne_empty q
        · intro m hm
          rw [hm] at h
          exact hprov m h
      exact classifiedError_ne_empty classifyStd err s.balance
        (fun m hm => classifyStd_ne_empty m s.balance hm) herr
    · obtain ⟨pk, hpk, hcore⟩ := tryBodyStd_ok parsePk ctx prov qres _ s1 evs htb
      obtain ⟨sig, _, hsig, _, _, herr⟩ :=
        tryCore_ok_shape parsePk pk prov qres _ s1 evs hcore
      rw [hres]
      left
      constructor
      · show s1.txHash ≠ none
        rw [hsig]
        simp
      · show s1.txError = ""
        rw [herr]

/-- Witness for the amended C7 theorem: a successful concrete submission
populates exactly the transaction identifier. -/
theorem outcome_exclusive_witness :
    exactlyOneOutcome (handleSendTransactionDirect Option.some
        ⟨some "W", true, true⟩ (Except.ok "SG") (Except.ok 0)
        { initDashState with
          balance := some 1, recipient := "R", amount := "0.5" }).1 :=
  outcome_exclusive.1 Option.some ⟨some "W", true, true⟩ (Except.ok "SG")
    (Except.ok 0) _ (fun m hm => by cases hm)

lemma refreshBalance_some_head (p : PubKey) (qres : Except String ℤ)
    (s : DashState) :
    ∃ t, (refreshBalance (some p) qres s).2 = Ev.balanceQueryEv p :: t := by
  cases qres <;> simp [refreshBalance]

/-- C3 counterexample: in a concrete successful submission the transaction
identifier is recorded (`setTxHash` at trace position four) strictly before
any stored-balance update (the refresh completes at position eight), so the
balance refresh does not complete before the success state is recorded. -/
theorem success_recorded_before_refresh_cex :
    ¬ refreshBeforeSuccess
      (handleSendTransactionDirect Option.some ⟨some "W", true, true⟩
        (Except.ok "SG") (Except.ok 2000000000)
        { initDashState with
          balance := some 1, recipient := "R", amount := "0.5" }).2 := by
  have htr := handleDirect_success_trace Option.some ⟨some "W", true, true⟩ "W"
    (Except.ok "SG") (Except.ok 2000000000)
    { initDashState with balance := some 1, recipient := "R", amount := "0.5" }
    "R" (1 / 2) "SG" rfl rfl rfl validate_ok_05 rfl
  intro h
  rw [htr] at h
  obtain ⟨j, hj, q, hq⟩ := h 4 "SG" rfl
  interval_cases j <;> simp at hq

/-- C3 amended: on every successful submission the success state is recorded
first and the balance refresh is issued afterwards, before the handler
completes: the `setTxHash` effect precedes the balance query in the trace —
in both variants (this is the ordering stated in the concurrency section of
the specification). -/
theorem success_recorded_then_refresh :
    (∀ (parsePk : String → Option PubKey) (ctx : DirectCtx) (pk r : PubKey)
       (q : ℚ) (sig : String) (prov : Except JsThrown String)
       (qres : Except String ℤ) (s : DashState),
       ctx.smartWalletPubkey = some pk → ctx.isConnected = true →
       ctx.hasWallet = true →
       validateTransfer parsePk s.recipient s.amount s.balance =
         Except.ok (r, q) →
       prov = Except.ok sig →
       ∃ i j : ℕ, i < j ∧
         (handleSendTransactionDirect parsePk ctx prov qres s).2[i]? =
           some (Ev.setTxHashEv (some sig)) ∧
         (handleSendTransactionDirect parsePk ctx prov qres s).2[j]? =
           some (Ev.balanceQueryEv pk)) ∧
    (∀ (parsePk : String → Option PubKey) (ctx : StdCtx) (pk r : PubKey)
       (q : ℚ) (sig : String) (prov : Except JsThrown String)
       (qres : Except String ℤ) (s : DashState),
       ctx.publicKey = some pk → ctx.connected = true →
       validateTransfer parsePk s.recipient s.amount s.balance =
         Except.ok (r, q) →
       prov = Except.ok sig →
       ∃ i j : ℕ, i < j ∧
         (handleSendTransactionStd parsePk ctx prov qres s).2[i]? =
           some (Ev.setTxHashEv (some sig)) ∧
         (handleSendTransactionStd parsePk ctx prov qres s).2[j]? =
           some (Ev.balanceQueryEv pk)) := by
  constructor
  · intro parsePk ctx pk r q sig prov qres s hpk hc hw hval hprov
    have htr := handleDirect_success_trace parsePk ctx pk prov qres s r q sig
      hpk hc hw hval hprov
    obtain ⟨t, ht⟩ := refreshBalance_some_head pk qres
      { s with
        txError := "", txHash := some sig, recipient := "", amount := "",
        sending := true }
    rw [ht] at htr
    refine ⟨4, 7, by omega, ?_, ?_⟩
    · rw [htr]
      simp
    · rw [htr]
      simp
  · intro parsePk ctx pk r q sig prov qres s hpk hc hval hprov
    have htr := handleStd_success_trace parsePk ctx pk prov qres s r q sig
      hpk hc hval hprov
    obtain ⟨t, ht⟩ := refreshBalance_some_head pk qres
      { s with
        txError := "", txHash := some sig, recipient := "", amount := "",
        sending := true }
    rw [ht] at htr
    refine ⟨4, 7, by omega, ?_, ?_⟩
    · rw [htr]
      simp
    · rw [htr]
      simp

/-- Witness for the amended C3 theorem at a concrete successful submission. -/
theorem success_recorded_then_refresh_witness :
    ∃ i j : ℕ, i < j ∧
      (handleSendTransactionDirect Option.some ⟨some "W", true, true⟩
        (Except.ok "SG") (Except.ok 0)
        { initDashState with
          balance := some 1, recipient := "R", amount := "0.5" }).2[i]? =
        some (Ev.setTxHashEv (some "SG")) ∧
      (handleSendTransactionDirect Option.some ⟨some "W", true, true⟩
        (Except.ok "SG") (Except.ok 0)
        { initDashState with
          balance := some 1, recipient := "R", amount := "0.5" }).2[j]? =
        some (Ev.balanceQueryEv "W") :=
  success_recorded_then_refresh.1 Option.some ⟨some "W", true, true⟩ "W" "R"
    (1 / 2) "SG" (Except.ok "SG") (Except.ok 0) _ rfl rfl rfl validate_ok_05 rfl

lemma parseFloatQ_1e10 :
    parseFloatQ "0.0000000001" = some (1 / 10000000000) := by
  simp [parseFloatQ, scanDigits]
  norm_num

lemma validate_ok_1e10 :
    validateTransfer Option.some "R" "0.0000000001" (some 1) =
      Except.ok ("R", 1 / 10000000000) := by
  unfold validateTransfer
  rw [show trimWs "R" = "R" from by decide]
  dsimp only
  rw [parseFloatQ_1e10]
  dsimp only
  rw [max_reserve_one]
  rw [if_neg (by norm_num), if_neg (by norm_num), if_neg (by norm_num)]

/-- C4 counterexample: the amount string "0.0000000001" (ten to the minus
ten) passes validation at balance one, and the lamports figure handed to the
sign-and-submit call is `10^-10 * 10^9 = 1/10` — not an integer: the code
performs no rounding when converting to the smallest native unit. -/
theorem lamports_fractional :
    Ev.submitEv "R" ((1 / 10000000000 : ℚ) * 1000000000) ∈
      (handleSendTransactionDirect Option.some ⟨some "W", true, true⟩
        (Except.ok "SG") (Except.ok 0)
        { initDashState with
          balance := some 1, recipient := "R",
          amount := "0.0000000001" }).2 ∧
    ¬ ∃ n : ℤ, ((1 / 10000000000 : ℚ) * 1000000000) = (n : ℚ) := by
  constructor
  · rw [handleDirect_success_trace Option.some ⟨some "W", true, true⟩ "W"
      (Except.ok "SG") (Except.ok 0)
      { initDashState with
        balance := some 1, recipient := "R", amount := "0.0000000001" }
      "R" (1 / 10000000000) "SG" rfl rfl rfl validate_ok_1e10 rfl]
    simp
  · rintro ⟨n, hn⟩
    have h1 : ((1 : ℚ) / 10000000000) * 1000000000 = 1 / 10 := by norm_num
    rw [h1] at hn
    have h2 : (10 : ℚ) * (n : ℚ) = 1 := by rw [← hn]; norm_num
    have h3 : (10 * n : ℤ) = 1 := by exact_mod_cast h2
    omega

/-- C4 amended: for every validated transfer the lamports figure handed to
the sign-and-submit call is exactly `amount * 10^9` (in the exact-rational
model of JS numbers), and it is an integer whenever the amount is a whole
multiple of `10^-9` (at most nine decimal places); the code itself never
rounds, so finer amounts yield non-integer lamports. -/
theorem lamports_exact_product :
    (∀ (parsePk : String → Option PubKey) (ctx : DirectCtx) (pk r : PubKey)
       (q : ℚ) (prov : Except JsThrown String) (qres : Except String ℤ)
       (s : DashState),
       ctx.smartWalletPubkey = some pk → ctx.isConnected = true →
       ctx.hasWallet = true →
       validateTransfer parsePk s.recipient s.amount s.balance =
         Except.ok (r, q) →
       (∀ rc l, Ev.submitEv rc l ∈
           (handleSendTransactionDirect parsePk ctx prov qres s).2 →
           rc = r ∧ l = q * 1000000000) ∧
       (∀ k : ℤ, q = (k : ℚ) / 1000000000 →
           ∃ n : ℤ, q * 1000000000 = (n : ℚ))) ∧
    (∀ (parsePk : String → Option PubKey) (ctx : StdCtx) (pk r : PubKey)
       (q : ℚ) (prov : Except JsThrown String) (qres : Except String ℤ)
       (s : DashState),
       ctx.publicKey = some pk → ctx.connected = true →
       validateTransfer parsePk s.recipient s.amount s.balance =
         Except.ok (r, q) →
       (∀ rc l, Ev.submitEv rc l ∈
           (handleSendTransactionStd parsePk ctx prov qres s).2 →
           rc = r ∧ l = q * 1000000000) ∧
       (∀ k : ℤ, q = (k : ℚ) / 1000000000 →
           ∃ n : ℤ, q * 1000000000 = (n : ℚ))) := by
  constructor
  · intro parsePk ctx pk r q prov qres s hpk hc hw hval
    constructor
    · intro rc l hm
      cases hprov : prov with
      | error e =>
        rw [handleDirect_of_prov_error parsePk ctx pk prov qres s r q e
          hpk hc hw hval hprov] at hm
        simp at hm
        exact hm
      | ok sig =>
        rw [handleDirect_success_trace parsePk ctx pk prov qres s r q sig
          hpk hc hw hval hprov] at hm
        rw [List.mem_append, List.mem_append] at hm
        rcases hm with (hm | hm) | hm
        · simp at hm
          exact hm
        · exact absurd hm (refreshBalance_no_submit (some pk) qres _ rc l)
        · simp at hm
    · intro k hk
      refine ⟨k, ?_⟩
      rw [hk]
      field_simp
  · intro parsePk ctx pk r q prov qres s hpk hc hval
    constructor
    · intro rc l hm
      cases hprov : prov with
      | error e =>
        rw [handleStd_of_prov_error parsePk ctx pk prov qres s r q e
          hpk hc hval hprov] at hm
        simp at hm
        exact hm
      | ok sig =>
        rw [handleStd_success_trace parsePk ctx pk prov qres s r q sig
          hpk hc hval hprov] at hm
        rw [List.mem_append, List.mem_append] at hm
        rcases hm with (hm | hm) | hm
        · simp at hm
          exact hm
        · exact absurd hm (refreshBalance_no_submit (some pk) qres _ rc l)
        · simp at hm
    · intro k hk
      refine ⟨k, ?_⟩
      rw [hk]
      field_simp

/-- Witness for the amended C4 theorem at the concrete validated amount one
half. -/
theorem lamports_exact_product_witness :
    (∀ rc l, Ev.submitEv rc l ∈
        (handleSendTransactionDirect Option.some ⟨some "W", true, true⟩
          (Except.ok "SG") (Except.ok 0)
          { initDashState with
            balance := some 1, recipient := "R", amount := "0.5" }).2 →
        rc = "R" ∧ l = (1 / 2 : ℚ) * 1000000000) ∧
    (∀ k : ℤ, (1 / 2 : ℚ) = (k : ℚ) / 1000000000 →
        ∃ n : ℤ, (1 / 2 : ℚ) * 1000000000 = (n : ℚ)) :=
  lamports_exact_product.1 Option.some ⟨some "W", true, true⟩ "W" "R" (1 / 2)
    (Except.ok "SG") (Except.ok 0) _ rfl rfl rfl validate_ok_05
